import Mathlib

/-!
Shallow embedding of the lookup-and-cache core of `ipv6request.go`
(package main): the TTL cache (`Cache.Get`/`Cache.Set`), the retrying
fetcher (`retryWithBackoff`) and the three lookup operations
(`lookupIPv6`, `lookupASNByIP`, `lookupASNDetails`).

Modelling conventions:
- time is an abstract monotone clock of type `Nat` (ticks are the time
  unit of the Go `time.Duration` values involved); `time.Now()` becomes
  an explicit `now : Nat` parameter, and `time.Since(ts)` becomes
  `now - ts` (truncated subtraction, which agrees with Go for the
  monotone clocks actually used);
- the Go map inside `Cache` becomes a function `String → Option CacheEntry`
  (a map holds at most one entry per key; `Set` overwrites);
- Go `interface{}` values stored in the cache become the sum `CValue`;
  `[]string` payloads are the `strList` constructor and `*ASNDetails`
  pointers are the `detailsRef` constructor carrying a heap address,
  with an explicit heap (`List ASNDetails`) modelling the Go heap so
  that pointer aliasing is observable;
- the HTTP request closure handed to `retryWithBackoff` becomes a
  function `Nat → FetchOutcome` giving the outcome of each successive
  invocation (Go closures are impure; indexing by invocation number
  makes the successive outcomes explicit), and JSON decoding
  (`json.NewDecoder(resp.Body).Decode`, an external library call)
  becomes an abstract `decode : String → Option _` parameter;
- Go `(value, err)` returns become `Except String value`; the fetcher,
  whose response and error can both be `nil` or non-`nil` independently,
  returns a pair of `Option`s.
-/

namespace IPv6Request

/-- One cache entry: Go struct `CacheEntry { value; timestamp; ttl }`. -/
structure CacheEntry (α : Type) where
  value : α
  timestamp : Nat
  ttl : Nat
deriving Repr

/-- The cache: Go `Cache { data map[string]CacheEntry }` (the `sync.RWMutex`
only serialises access and has no sequential behaviour to model). -/
structure Cache (α : Type) where
  data : String → Option (CacheEntry α)

/-- The initial cache: `make(map[string]CacheEntry)`. -/
def Cache.empty {α : Type} : Cache α := ⟨fun _ => none⟩

/-- Go `func (c *Cache) Get(key string) (interface{}, bool)`: absent key or
`time.Since(entry.timestamp) > entry.ttl` give `(nil, false)`, otherwise
`(entry.value, true)`.  `(nil, false)` is modelled as `none` and
`(v, true)` as `some v`. -/
def Cache.get {α : Type} (c : Cache α) (now : Nat) (key : String) : Option α :=
  match c.data key with
  | none => none
  | some entry => if now - entry.timestamp > entry.ttl then none else some entry.value

/-- Go `func (c *Cache) Set(key string, value interface{}, ttl time.Duration)`:
unconditional overwrite, recording `time.Now()` as the entry's timestamp. -/
def Cache.set {α : Type} (c : Cache α) (now : Nat) (key : String) (value : α)
    (ttl : Nat) : Cache α :=
  ⟨fun k => if k = key then some ⟨value, now, ttl⟩ else c.data k⟩

theorem Cache.data_set_self {α : Type} (c : Cache α) (now0 : Nat) (k : String)
    (v : α) (ttl : Nat) :
    (c.set now0 k v ttl).data k = some ⟨v, now0, ttl⟩ := by
  simp [Cache.set]

/-- An HTTP response as far as the core observes it: the Go
`*http.Response` fields read by this program are `StatusCode` and the
body stream handed to the JSON decoder (modelled as a string). -/
structure HttpResponse where
  statusCode : Nat
  body : String
deriving Repr, DecidableEq

/-- Outcome of one invocation of the request function `fn` passed to
`retryWithBackoff`: either a non-nil transport error (`resp` is nil)
or a response with nil error. -/
inductive FetchOutcome where
  | err (e : String)
  | resp (r : HttpResponse)
deriving Repr, DecidableEq

/-- Observable trace of one `retryWithBackoff` run: how many times `fn`
was invoked, the `time.Sleep` durations in seconds, in order, and the
final `(resp, err)` pair (each side may independently be nil). -/
structure RetryTrace where
  calls : Nat
  waits : List Nat
  resp : Option HttpResponse
  err : Option String
deriving Repr, DecidableEq

/-- The loop body of Go `retryWithBackoff(fn, maxRetries)`.  The Go loop
`for attempt := 0; attempt < maxRetries; attempt++` is unrolled on
`remaining = maxRetries - attempt`, so `remaining = 0` is loop exit (the
trailing `return resp, err` with both still nil) and `remaining = 1`
means `attempt == maxRetries-1`, the final attempt.  On a transport
error before the final attempt the wait is `2^attempt` seconds
(`math.Pow(2, float64(attempt))`); on a 429 response before the final
attempt the body is closed and the wait is `2^(attempt+2)` seconds; on
the final attempt the error, resp. the 429 response, is returned; any
other response returns immediately. -/
def retryGo (fn : Nat → FetchOutcome) (attempt : Nat) : Nat → RetryTrace
  | 0 => ⟨0, [], none, none⟩
  | remaining + 1 =>
    match fn attempt with
    | .err e =>
      if remaining = 0 then ⟨1, [], none, some e⟩
      else
        let t := retryGo fn (attempt + 1) remaining
        ⟨t.calls + 1, 2 ^ attempt :: t.waits, t.resp, t.err⟩
    | .resp r =>
      if r.statusCode = 429 then
        if remaining = 0 then ⟨1, [], some r, none⟩
        else
          let t := retryGo fn (attempt + 1) remaining
          ⟨t.calls + 1, 2 ^ (attempt + 2) :: t.waits, t.resp, t.err⟩
      else ⟨1, [], some r, none⟩

/-- Go `func retryWithBackoff(fn func() (*http.Response, error), maxRetries int)
(*http.Response, error)`, with the invocation count and sleep schedule
exposed in the trace. -/
def retryWithBackoff (fn : Nat → FetchOutcome) (maxRetries : Nat) : RetryTrace :=
  retryGo fn 0 maxRetries

theorem retryGo_all_err (fn : Nat → FetchOutcome) (e : Nat → String)
    (h : ∀ i, fn i = .err (e i)) :
    ∀ remaining attempt, 1 ≤ remaining →
      retryGo fn attempt remaining =
        ⟨remaining, (List.range (remaining - 1)).map (fun i => 2 ^ (attempt + i)),
          none, some (e (attempt + remaining - 1))⟩ := by
  intro remaining
  induction remaining with
  | zero => omega
  | succ rem ih =>
    intro attempt _
    rcases Nat.eq_zero_or_pos rem with hr | hr
    · subst hr
      simp [retryGo, h attempt]
    · have hstep := ih (attempt + 1) hr
      have hlist : 2 ^ attempt :: (List.range (rem - 1)).map (fun i => 2 ^ (attempt + 1 + i)) =
          (List.range (rem + 1 - 1)).map (fun i => 2 ^ (attempt + i)) := by
        have hr1 : rem + 1 - 1 = (rem - 1) + 1 := by omega
        rw [hr1, List.range_succ_eq_map, List.map_cons, List.map_map]
        simp only [Nat.add_zero, List.cons.injEq, true_and]
        refine List.map_congr_left fun i _ => ?_
        simp only [Function.comp_apply]
        congr 1
        omega
      have hidx : attempt + 1 + rem - 1 = attempt + (rem + 1) - 1 := by omega
      simp only [retryGo, h attempt, if_neg (by omega : ¬ rem = 0), hstep]
      rw [hidx, ← hlist]

theorem retryGo_all_429 (fn : Nat → FetchOutcome) (rs : Nat → HttpResponse)
    (hfn : ∀ i, fn i = .resp (rs i)) (h429 : ∀ i, (rs i).statusCode = 429) :
    ∀ remaining attempt, 1 ≤ remaining →
      retryGo fn attempt remaining =
        ⟨remaining, (List.range (remaining - 1)).map (fun i => 2 ^ (attempt + i + 2)),
          some (rs (attempt + remaining - 1)), none⟩ := by
  intro remaining
  induction remaining with
  | zero => omega
  | succ rem ih =>
    intro attempt _
    rcases Nat.eq_zero_or_pos rem with hr | hr
    · subst hr
      simp [retryGo, hfn attempt, h429 attempt]
    · have hstep := ih (attempt + 1) hr
      have hlist : 2 ^ (attempt + 2) ::
            (List.range (rem - 1)).map (fun i => 2 ^ (attempt + 1 + i + 2)) =
          (List.range (rem + 1 - 1)).map (fun i => 2 ^ (attempt + i + 2)) := by
        have hr1 : rem + 1 - 1 = (rem - 1) + 1 := by omega
        rw [hr1, List.range_succ_eq_map, List.map_cons, List.map_map]
        simp only [Nat.add_zero, List.cons.injEq, true_and]
        refine List.map_congr_left fun i _ => ?_
        simp only [Function.comp_apply]
        congr 1
        omega
      have hidx : attempt + 1 + rem - 1 = attempt + (rem + 1) - 1 := by omega
      simp only [retryGo, hfn attempt, h429 attempt, if_pos rfl,
        if_neg (by omega : ¬ rem = 0), hstep]
      rw [hidx, ← hlist]
      simp

/-- Detailed ASN information (Go struct `ASNDetails`).  The Go field
`TrafficRatio` is `trafficRatioStr` here. -/
structure ASNDetails where
  asn : String
  name : String
  descriptionShort : String
  descriptionFull : List String
  countryCode : String
  website : String
  emailContacts : List String
  abuseContacts : List String
  trafficRatioStr : String
  ownerAddress : List String
  rirAllocation : String
  ianaAssignment : String
  whoisServer : String
  dateUpdated : String
deriving Repr, DecidableEq

/-- The `interface{}` values this program stores in the cache: `[]string`
slices (prefix lists and `[asn, name]` pairs) and `*ASNDetails` pointers.
A pointer is a heap address, so that aliasing between the cache and a
caller is observable. -/
inductive CValue where
  | strList (l : List String)
  | detailsRef (addr : Nat)
deriving Repr, DecidableEq

/-- One element of `data.ipv6_prefixes` in the ASN-prefixes response
(Go field `Prefix` is `prefixStr` here). -/
structure PrefixItem where
  prefixStr : String
deriving Repr, DecidableEq

/-- Go struct `bgpViewData`: the decoded ASN-prefixes response
(the `data` wrapper object is flattened). -/
structure bgpViewData where
  ipv6Prefixes : List PrefixItem
deriving Repr, DecidableEq

/-- The `asn` object inside one element of `data.prefixes` of the
IP-lookup response. -/
structure BgpASNInfo where
  asn : Int
  name : String
  description : String
  countryCode : String
deriving Repr, DecidableEq

/-- One element of `data.prefixes` of the IP-lookup response
(Go field `ASN` is `asnInfo` here). -/
structure BgpIPPrefixItem where
  asnInfo : BgpASNInfo
deriving Repr, DecidableEq

/-- Go struct `bgpViewIPData`: the decoded IP-lookup response
(the `data` wrapper object is flattened; the unused `ip` field is
dropped). -/
structure bgpViewIPData where
  prefixes : List BgpIPPrefixItem
deriving Repr, DecidableEq

/-- The `rir_allocation` object of the ASN-details response. -/
structure BgpRIRAllocation where
  rirName : String
  countryCode : String
  dateAllocated : String
  allocationStatus : String
deriving Repr, DecidableEq

/-- The `iana_assignment` object of the ASN-details response. -/
structure BgpIANAAssignment where
  assignmentStatus : String
  description : String
  whoisServer : String
  dateAssigned : String
deriving Repr, DecidableEq

/-- Go struct `bgpViewASNData`: the decoded ASN-details response
(the `data` wrapper object is flattened; Go field `TrafficRatio` is
`trafficRatioStr` here). -/
structure bgpViewASNData where
  asn : Int
  name : String
  descriptionShort : String
  descriptionFull : List String
  countryCode : String
  website : String
  emailContacts : List String
  abuseContacts : List String
  trafficRatioStr : String
  ownerAddress : List String
  rirAllocation : BgpRIRAllocation
  ianaAssignment : BgpIANAAssignment
  dateUpdated : String
deriving Repr, DecidableEq

/-- Result of one lookup call: the Go `(value, error)` return, the cache
after the call, and how many times the outbound HTTP request function
was invoked during the call. -/
structure LookupOut (α : Type) where
  result : Except String α
  cache : Cache CValue
  fetchCalls : Nat

/-- Go `func lookupIPv6(asn string) ([]string, error)`.  `decode` stands
for `json.NewDecoder(resp.Body).Decode(&bgp)` and `fetch` for the
closure `func() { return httpClient.Get(bgpURL) }`; `now` is the
current time in seconds.  The type assertion `cached.([]string)` on a
cache hit panics in Go when the stored value is not a `[]string`; that
panic is modelled as an error return. -/
def lookupIPv6 (decode : String → Option bgpViewData) (fetch : Nat → FetchOutcome)
    (now : Nat) (c : Cache CValue) (asn : String) : LookupOut (List String) :=
  let cacheKey := "asn_" ++ asn
  match c.get now cacheKey with
  | some (.strList cached) => ⟨.ok cached, c, 0⟩
  | some (.detailsRef _) => ⟨.error "interface conversion: not a []string", c, 0⟩
  | none =>
    let t := retryWithBackoff fetch 3
    match t.err with
    | some e => ⟨.error ("BGPView API request failed: " ++ e), c, t.calls⟩
    | none =>
      match t.resp with
      | none => ⟨.error "nil response dereference", c, t.calls⟩
      | some r =>
        if r.statusCode ≠ 200 then
          if r.statusCode = 429 then
            ⟨.error ("BGPView API rate limit exceeded for ASN " ++ asn ++
              ". Please try again in a few minutes"), c, t.calls⟩
          else
            ⟨.error ("BGPView API returned status " ++ toString r.statusCode ++
              " for ASN " ++ asn), c, t.calls⟩
        else
          match decode r.body with
          | none => ⟨.error ("failed to parse BGPView response for ASN " ++ asn), c, t.calls⟩
          | some bgp =>
            let ipv6 := bgp.ipv6Prefixes.map (fun p => p.prefixStr)
            ⟨.ok ipv6, c.set now cacheKey (.strList ipv6) 3600, t.calls⟩

/-- Go `func lookupASNByIP(ip string) (string, string, error)`.  The
cached value is a `[]string` holding `[asn, name]`; indexing
`result[0]`, `result[1]` panics in Go when the slice is shorter, which
is modelled as an error return. -/
def lookupASNByIP (decode : String → Option bgpViewIPData) (fetch : Nat → FetchOutcome)
    (now : Nat) (c : Cache CValue) (ip : String) : LookupOut (String × String) :=
  let cacheKey := "ip_" ++ ip
  match c.get now cacheKey with
  | some (.strList cached) =>
    match cached with
    | a :: b :: _ => ⟨.ok (a, b), c, 0⟩
    | _ => ⟨.error "index out of range", c, 0⟩
  | some (.detailsRef _) => ⟨.error "interface conversion: not a []string", c, 0⟩
  | none =>
    let t := retryWithBackoff fetch 3
    match t.err with
    | some e => ⟨.error ("BGPView IP API request failed: " ++ e), c, t.calls⟩
    | none =>
      match t.resp with
      | none => ⟨.error "nil response dereference", c, t.calls⟩
      | some r =>
        if r.statusCode ≠ 200 then
          if r.statusCode = 429 then
            ⟨.error ("BGPView API rate limit exceeded for IP " ++ ip ++
              ". Please try again in a few minutes"), c, t.calls⟩
          else
            ⟨.error ("BGPView IP API returned status " ++ toString r.statusCode ++
              " for IP " ++ ip), c, t.calls⟩
        else
          match decode r.body with
          | none => ⟨.error ("failed to parse BGPView IP response for " ++ ip), c, t.calls⟩
          | some bgpIP =>
            match bgpIP.prefixes with
            | p :: _ =>
              let asn := toString p.asnInfo.asn
              let name := if p.asnInfo.name = "" then p.asnInfo.description else p.asnInfo.name
              ⟨.ok (asn, name), c.set now cacheKey (.strList [asn, name]) 1800, t.calls⟩
            | [] => ⟨.error ("no ASN found for IP " ++ ip), c, t.calls⟩

/-- Result of `lookupASNDetails`: the returned `*ASNDetails` pointer is a
heap address, and the heap after the call is included so aliasing is
observable. -/
structure DetailsOut where
  result : Except String Nat
  cache : Cache CValue
  heap : List ASNDetails
  fetchCalls : Nat

/-- Go `func lookupASNDetails(asn string) (*ASNDetails, error)`.  On a
cache hit the Go code returns `cached.(*ASNDetails)` — the very pointer
stored in the cache; on success it allocates `details := &ASNDetails{…}`
(a fresh heap address), stores that pointer in the cache and returns
the same pointer.  The Go conditional assignments of `RIRAllocation`
and `IANAAssignment` (only when the source field is non-empty, the zero
value `""` otherwise) appear as the two inner conditionals. -/
def lookupASNDetails (decode : String → Option bgpViewASNData) (fetch : Nat → FetchOutcome)
    (now : Nat) (c : Cache CValue) (heap : List ASNDetails) (asn : String) : DetailsOut :=
  let cacheKey := "asn_details_" ++ asn
  match c.get now cacheKey with
  | some (.detailsRef addr) => ⟨.ok addr, c, heap, 0⟩
  | some (.strList _) => ⟨.error "interface conversion: not a *ASNDetails", c, heap, 0⟩
  | none =>
    let t := retryWithBackoff fetch 3
    match t.err with
    | some e => ⟨.error ("BGPView ASN details API request failed: " ++ e), c, heap, t.calls⟩
    | none =>
      match t.resp with
      | none => ⟨.error "nil response dereference", c, heap, t.calls⟩
      | some r =>
        if r.statusCode ≠ 200 then
          if r.statusCode = 429 then
            ⟨.error ("BGPView API rate limit exceeded for ASN " ++ asn ++ " details"),
              c, heap, t.calls⟩
          else
            ⟨.error ("BGPView ASN details API returned status " ++ toString r.statusCode ++
              " for ASN " ++ asn), c, heap, t.calls⟩
        else
          match decode r.body with
          | none =>
            ⟨.error ("failed to parse BGPView ASN details response for " ++ asn),
              c, heap, t.calls⟩
          | some bgpASN =>
            let details : ASNDetails :=
              ⟨toString bgpASN.asn, bgpASN.name, bgpASN.descriptionShort,
               bgpASN.descriptionFull, bgpASN.countryCode, bgpASN.website,
               bgpASN.emailContacts, bgpASN.abuseContacts, bgpASN.trafficRatioStr,
               bgpASN.ownerAddress,
               (if bgpASN.rirAllocation.rirName ≠ "" then bgpASN.rirAllocation.rirName else ""),
               (if bgpASN.ianaAssignment.description ≠ "" then bgpASN.ianaAssignment.description
                else ""),
               bgpASN.ianaAssignment.whoisServer, bgpASN.dateUpdated⟩
            let addr := heap.length
            ⟨.ok addr, c.set now cacheKey (.detailsRef addr) 7200, heap ++ [details], t.calls⟩

theorem retryGo_first_resp_non429 (fn : Nat → FetchOutcome) (r : HttpResponse)
    (attempt rem : Nat) (h0 : fn attempt = .resp r) (hs : r.statusCode ≠ 429) :
    retryGo fn attempt (rem + 1) = ⟨1, [], some r, none⟩ := by
  simp [retryGo, h0, hs]

theorem Cache.get_eq_some {α : Type} (c : Cache α) (now : Nat) (key : String)
    (v : α) (h : c.get now key = some v) :
    ∃ entry, c.data key = some entry ∧ entry.value = v := by
  unfold Cache.get at h
  rcases hd : c.data key with _ | entry
  · rw [hd] at h
    exact Option.noConfusion (show (none : Option α) = some v from h)
  · rw [hd] at h
    have h' : (if now - entry.timestamp > entry.ttl then none
        else some entry.value) = some v := h
    refine ⟨entry, rfl, ?_⟩
    by_cases hc : now - entry.timestamp > entry.ttl
    · rw [if_pos hc] at h'
      exact Option.noConfusion h'
    · rw [if_neg hc] at h'
      injection h'

/-! ## Claims -/

/-- C1 (counterexample): the claim "`Get(k)` returns `(_, false)` at any time
`t >= ttl` after the set" fails at the boundary `t = ttl`: `Cache.Get`
expires an entry only when `time.Since(entry.timestamp) > entry.ttl` is
strict, so at `t = ttl` exactly the entry is still returned.  Concretely,
after `Set("k", 42, 5)` at time 0, `Get("k")` at time 5 returns
`(42, true)` even though `5 ≥ 5`. -/
theorem cache_ttl_boundary_counterexample :
    (5 : Nat) ≥ 5 ∧
      ((Cache.empty : Cache Nat).set 0 "k" 42 5).get (0 + 5) "k" = some 42 := by
  exact ⟨by omega, by rfl⟩

/-- C1 (amended): after `Set(k, v, ttl)` at time `now0`, `Get(k)` at time
`now0 + t` returns `(v, true)` for every `t ≤ ttl` and `(_, false)` for
every `t > ttl` — the entry expires strictly after its TTL elapses, with
the boundary instant `t = ttl` still a hit. -/
theorem cache_ttl_set_then_get {α : Type} (c : Cache α) (now0 t : Nat) (k : String)
    (v : α) (ttl : Nat) :
    (c.set now0 k v ttl).get (now0 + t) k = if t ≤ ttl then some v else none := by
  simp only [Cache.get, Cache.data_set_self, Nat.add_sub_cancel_left]
  rcases Nat.lt_or_ge ttl t with h1 | h1
  · rw [if_pos h1, if_neg (by omega)]
  · rw [if_neg (by omega), if_pos h1]

/-- C2: when every invocation of the request function yields a transport
error, `retryWithBackoff(fn, N)` with `N ≥ 1` invokes `fn` exactly `N`
times (not `N + 1`) and returns the error of the final invocation, with a
nil response. -/
theorem retry_always_error_invokes_exactly_n (fn : Nat → FetchOutcome)
    (e : Nat → String) (N : Nat) (hN : 1 ≤ N) (h : ∀ i, fn i = .err (e i)) :
    (retryWithBackoff fn N).calls = N ∧
      (retryWithBackoff fn N).err = some (e (N - 1)) ∧
      (retryWithBackoff fn N).resp = none := by
  rw [retryWithBackoff, retryGo_all_err fn e h N 0 hN]
  exact ⟨rfl, by simp, rfl⟩

/-- C2 (witness): for `fn` failing every time with error "boom" and `N = 3`,
the fetcher makes exactly 3 calls, returns the error and no response. -/
theorem retry_always_error_witness :
    (retryWithBackoff (fun _ => .err "boom") 3).calls = 3 ∧
      (retryWithBackoff (fun _ => .err "boom") 3).err = some "boom" ∧
      (retryWithBackoff (fun _ => .err "boom") 3).resp = none :=
  retry_always_error_invokes_exactly_n (fun _ => .err "boom") (fun _ => "boom") 3
    (by omega) (fun _ => rfl)

/-- C3: the sleep schedule of `retryWithBackoff`.  When every attempt fails
with a transport error, the waits before the retries are `2^attempt`
seconds for the zero-indexed attempts `0 .. N-2` (1s, 2s, …); when every
attempt yields an HTTP 429 response, the waits are `2^(attempt+2)`
seconds (4s, 8s, …), longer than the transport-error backoff. -/
theorem retry_backoff_schedule (fnE fn429 : Nat → FetchOutcome) (e : Nat → String)
    (rs : Nat → HttpResponse) (N : Nat) (hE : ∀ i, fnE i = .err (e i))
    (hR : ∀ i, fn429 i = .resp (rs i)) (h429 : ∀ i, (rs i).statusCode = 429) :
    (retryWithBackoff fnE N).waits = (List.range (N - 1)).map (fun i => 2 ^ i) ∧
      (retryWithBackoff fn429 N).waits =
        (List.range (N - 1)).map (fun i => 2 ^ (i + 2)) := by
  cases N with
  | zero => exact ⟨rfl, rfl⟩
  | succ m =>
    rw [retryWithBackoff, retryWithBackoff, retryGo_all_err fnE e hE (m + 1) 0 (by omega),
      retryGo_all_429 fn429 rs hR h429 (m + 1) 0 (by omega)]
    constructor
    · simp
    · simp

/-- C3 (witness): for `N = 3`, the transport-error schedule is 1s then 2s,
and the 429 schedule is 4s then 8s. -/
theorem retry_backoff_schedule_witness :
    (retryWithBackoff (fun _ => .err "boom") 3).waits = [1, 2] ∧
      (retryWithBackoff (fun _ => .resp ⟨429, ""⟩) 3).waits = [4, 8] := by
  have h := retry_backoff_schedule (fun _ => .err "boom") (fun _ => .resp ⟨429, ""⟩)
    (fun _ => "boom") (fun _ => ⟨429, ""⟩) 3 (fun _ => rfl) (fun _ => rfl) (fun _ => rfl)
  exact ⟨h.1.trans (by decide), h.2.trans (by decide)⟩

/-- C4: when every one of the `N ≥ 1` attempts yields an HTTP 429 response,
`retryWithBackoff` returns the 429 response of the final attempt with a
nil error (it does not turn the 429 into an error), after exactly `N`
invocations. -/
theorem retry_all_429_returns_final_response (fn : Nat → FetchOutcome)
    (rs : Nat → HttpResponse) (N : Nat) (hN : 1 ≤ N)
    (hfn : ∀ i, fn i = .resp (rs i)) (h429 : ∀ i, (rs i).statusCode = 429) :
    (retryWithBackoff fn N).resp = some (rs (N - 1)) ∧
      (retryWithBackoff fn N).err = none ∧
      (retryWithBackoff fn N).calls = N := by
  rw [retryWithBackoff, retryGo_all_429 fn rs hfn h429 N 0 hN]
  exact ⟨by simp, rfl, rfl⟩

/-- C4 (witness): three attempts all yielding distinct 429 responses; the
response of the third (final) attempt is returned with a nil error. -/
theorem retry_all_429_witness :
    (retryWithBackoff (fun i => .resp ⟨429, toString i⟩) 3).resp = some ⟨429, "2"⟩ ∧
      (retryWithBackoff (fun i => .resp ⟨429, toString i⟩) 3).err = none ∧
      (retryWithBackoff (fun i => .resp ⟨429, toString i⟩) 3).calls = 3 := by
  have h := retry_all_429_returns_final_response (fun i => .resp ⟨429, toString i⟩)
    (fun i => ⟨429, toString i⟩) 3 (by omega) (fun _ => rfl) (fun _ => rfl)
  exact ⟨h.1.trans (by decide), h.2.1, h.2.2⟩

/-- C5: when the first invocation yields a response whose status is not 429
(with no transport error), `retryWithBackoff` with `N ≥ 1` returns after
exactly one invocation, with that response, no error and no waiting. -/
theorem retry_non429_returns_immediately (fn : Nat → FetchOutcome) (r : HttpResponse)
    (N : Nat) (hN : 1 ≤ N) (h0 : fn 0 = .resp r) (hs : r.statusCode ≠ 429) :
    retryWithBackoff fn N = ⟨1, [], some r, none⟩ := by
  cases N with
  | zero => omega
  | succ m => simp [retryWithBackoff, retryGo, h0, hs]

/-- C5 (witness): a first-attempt HTTP 500 response is returned as-is after
one invocation and no sleeps. -/
theorem retry_non429_witness :
    retryWithBackoff (fun _ => .resp ⟨500, "oops"⟩) 3 =
      ⟨1, [], some ⟨500, "oops"⟩, none⟩ :=
  retry_non429_returns_immediately (fun _ => .resp ⟨500, "oops"⟩) ⟨500, "oops"⟩ 3
    (by omega) rfl (by decide)

/-- C6: on a cache miss, when the first request yields a 200 response whose
body decodes to an empty `ipv6_prefixes` array, `lookupIPv6` returns the
empty prefix list with a nil error — an empty result is success. -/
theorem lookupIPv6_empty_is_success (decode : String → Option bgpViewData)
    (fetch : Nat → FetchOutcome) (now : Nat) (c : Cache CValue) (asn : String)
    (r : HttpResponse) (hmiss : c.get now ("asn_" ++ asn) = none)
    (hfetch : fetch 0 = .resp r) (h200 : r.statusCode = 200)
    (hdecode : decode r.body = some ⟨[]⟩) :
    (lookupIPv6 decode fetch now c asn).result = .ok [] := by
  have ht : retryWithBackoff fetch 3 = ⟨1, [], some r, none⟩ :=
    retryGo_first_resp_non429 fetch r 0 2 hfetch (by rw [h200]; omega)
  simp [lookupIPv6, hmiss, ht, h200, hdecode]

/-- C6 (witness): concrete run — empty cache, one 200 response decoding to
an empty prefix array — returns `ok []`. -/
theorem lookupIPv6_empty_witness :
    (lookupIPv6 (fun _ => some ⟨[]⟩) (fun _ => .resp ⟨200, "jsonbody"⟩) 0 Cache.empty
      "64500").result = .ok [] :=
  lookupIPv6_empty_is_success (fun _ => some ⟨[]⟩) (fun _ => .resp ⟨200, "jsonbody"⟩) 0
    Cache.empty "64500" ⟨200, "jsonbody"⟩ rfl rfl rfl rfl

/-- C7: when the cache holds an unexpired `[]string` entry for key
`"asn_" + asn`, `lookupIPv6` returns that cached value with a nil error,
invokes the outbound request function zero times, and leaves the cache
unchanged. -/
theorem lookupIPv6_cache_hit_skips_network (decode : String → Option bgpViewData)
    (fetch : Nat → FetchOutcome) (now : Nat) (c : Cache CValue) (asn : String)
    (l : List String) (hhit : c.get now ("asn_" ++ asn) = some (.strList l)) :
    (lookupIPv6 decode fetch now c asn).result = .ok l ∧
      (lookupIPv6 decode fetch now c asn).fetchCalls = 0 ∧
      (lookupIPv6 decode fetch now c asn).cache = c := by
  simp [lookupIPv6, hhit]

/-- C7 (witness): cache pre-populated with `"asn_64500" ↦ []` (TTL 1 hour)
at time 0; the lookup at time 10 returns `ok []` with zero outbound
calls, even though the request function would fail. -/
theorem lookupIPv6_cache_hit_witness :
    (lookupIPv6 (fun _ => none) (fun _ => .err "down") 10
        (Cache.empty.set 0 "asn_64500" (.strList []) 3600) "64500").result = .ok [] ∧
      (lookupIPv6 (fun _ => none) (fun _ => .err "down") 10
        (Cache.empty.set 0 "asn_64500" (.strList []) 3600) "64500").fetchCalls = 0 ∧
      (lookupIPv6 (fun _ => none) (fun _ => .err "down") 10
          (Cache.empty.set 0 "asn_64500" (.strList []) 3600) "64500").cache =
        Cache.empty.set 0 "asn_64500" (.strList []) 3600 :=
  lookupIPv6_cache_hit_skips_network (fun _ => none) (fun _ => .err "down") 10
    (Cache.empty.set 0 "asn_64500" (.strList []) 3600) "64500" [] (by rfl)

/-- C8: on a cache miss whose first request yields a 200 response that
decodes successfully, `lookupASNByIP` takes the first prefix of the
decoded list, returning its ASN (printed in decimal) and its name —
falling back to the description field when the name is empty — and
fails with a "no ASN found" error when the decoded prefix list is
empty. -/
theorem lookupASNByIP_first_or_not_found (decode : String → Option bgpViewIPData)
    (fetch : Nat → FetchOutcome) (now : Nat) (c : Cache CValue) (ip : String)
    (r : HttpResponse) (d : bgpViewIPData) (hmiss : c.get now ("ip_" ++ ip) = none)
    (hfetch : fetch 0 = .resp r) (h200 : r.statusCode = 200)
    (hdecode : decode r.body = some d) :
    (lookupASNByIP decode fetch now c ip).result =
      match d.prefixes with
      | [] => .error ("no ASN found for IP " ++ ip)
      | p :: _ => .ok (toString p.asnInfo.asn,
          if p.asnInfo.name = "" then p.asnInfo.description else p.asnInfo.name) := by
  have ht : retryWithBackoff fetch 3 = ⟨1, [], some r, none⟩ :=
    retryGo_first_resp_non429 fetch r 0 2 hfetch (by rw [h200]; omega)
  rcases hd : d.prefixes with _ | ⟨p, rest⟩ <;>
    simp [lookupASNByIP, hmiss, ht, h200, hdecode, hd]

/-- C8 (witness): a decoded prefix whose ASN has empty `name` and
description "Example Org" resolves to `("64500", "Example Org")`, and an
empty decoded prefix list fails with "no ASN found for IP 192.0.2.7". -/
theorem lookupASNByIP_witness :
    (lookupASNByIP (fun _ => some ⟨[⟨⟨64500, "", "Example Org", "US"⟩⟩]⟩)
        (fun _ => .resp ⟨200, "jsonbody"⟩) 0 Cache.empty "192.0.2.7").result =
      .ok ("64500", "Example Org") ∧
      (lookupASNByIP (fun _ => some ⟨[]⟩) (fun _ => .resp ⟨200, "jsonbody"⟩) 0 Cache.empty
          "192.0.2.7").result = .error ("no ASN found for IP 192.0.2.7") := by
  constructor
  · exact (lookupASNByIP_first_or_not_found
      (fun _ => some ⟨[⟨⟨64500, "", "Example Org", "US"⟩⟩]⟩)
      (fun _ => .resp ⟨200, "jsonbody"⟩) 0 Cache.empty "192.0.2.7" ⟨200, "jsonbody"⟩
      ⟨[⟨⟨64500, "", "Example Org", "US"⟩⟩]⟩ rfl rfl rfl rfl).trans (by rfl)
  · exact (lookupASNByIP_first_or_not_found (fun _ => some ⟨[]⟩)
      (fun _ => .resp ⟨200, "jsonbody"⟩) 0 Cache.empty "192.0.2.7" ⟨200, "jsonbody"⟩ ⟨[]⟩
      rfl rfl rfl rfl).trans (by rfl)

/-- C9: whenever any of the three lookups returns an error — transport
failure after retries, HTTP 429, any other non-200 status, decode
failure, no-ASN-found, or a cache-hit type-assertion failure — the cache
after the call is the cache that was passed in: no `Set` is performed on
any error path. -/
theorem lookups_error_leave_cache_unchanged (dv : String → Option bgpViewData)
    (di : String → Option bgpViewIPData) (dd : String → Option bgpViewASNData)
    (fetch : Nat → FetchOutcome) (now : Nat) (c : Cache CValue)
    (heap : List ASNDetails) (s : String) :
    (∀ e, (lookupIPv6 dv fetch now c s).result = .error e →
      (lookupIPv6 dv fetch now c s).cache = c) ∧
      (∀ e, (lookupASNByIP di fetch now c s).result = .error e →
        (lookupASNByIP di fetch now c s).cache = c) ∧
      (∀ e, (lookupASNDetails dd fetch now c heap s).result = .error e →
        (lookupASNDetails dd fetch now c heap s).cache = c) := by
  refine ⟨fun e h => ?_, fun e h => ?_, fun e h => ?_⟩
  · simp only [lookupIPv6] at h ⊢
    repeat' split at h
    all_goals simp_all
  · simp only [lookupASNByIP] at h ⊢
    repeat' split at h
    all_goals simp_all
  · simp only [lookupASNDetails] at h ⊢
    repeat' split at h
    all_goals simp_all

/-- C9 (witness): with the upstream down (every request a transport error),
each of the three lookups fails and each leaves the (empty) cache
exactly as it was. -/
theorem lookups_error_witness :
    (lookupIPv6 (fun _ => none) (fun _ => .err "down") 0 Cache.empty "64500").cache =
        Cache.empty ∧
      (lookupASNByIP (fun _ => none) (fun _ => .err "down") 0 Cache.empty
          "64500").cache = Cache.empty ∧
      (lookupASNDetails (fun _ => none) (fun _ => .err "down") 0 Cache.empty []
          "64500").cache = Cache.empty := by
  have h := lookups_error_leave_cache_unchanged (fun _ => none) (fun _ => none)
    (fun _ => none) (fun _ => .err "down") 0 Cache.empty [] "64500"
  exact ⟨h.1 "BGPView API request failed: down" (by rfl),
    h.2.1 "BGPView IP API request failed: down" (by rfl),
    h.2.2 "BGPView ASN details API request failed: down" (by rfl)⟩

/-- C10 (counterexample): the claim "callers receive a copy or an interface
view of the stored value, never an aliased mutable reference to the
entry the cache retains" fails for `lookupASNDetails`: a cache hit
returns `cached.(*ASNDetails)`, the very pointer stored in the cache.
Concretely, with the cache holding pointer (heap address) 0 under
`"asn_details_64500"`, the lookup hands that same address 0 to the
caller while the cache still retains it. -/
theorem details_alias_counterexample :
    (lookupASNDetails (fun _ => none) (fun _ => .err "down") 5
        ((Cache.empty : Cache CValue).set 0 "asn_details_64500" (.detailsRef 0) 7200)
        [⟨"64500", "ExampleNet", "", [], "US", "", [], [], "", [], "", "", "", ""⟩]
        "64500").result = .ok 0 ∧
      ((Cache.empty : Cache CValue).set 0 "asn_details_64500" (.detailsRef 0) 7200).get 5
        "asn_details_64500" = some (.detailsRef 0) := by
  exact ⟨by rfl, by rfl⟩

/-- C10 (amended): `Cache.Get` returns the stored interface value as-is, so
for pointer-typed entries the caller and the cache alias the same heap
object: whenever `lookupASNDetails` returns a pointer `a` (on a cache
hit or after a fresh fetch), the cache after the call retains an entry
for the key whose stored value is that same pointer `a`. -/
theorem lookupASNDetails_result_aliases_cache (dd : String → Option bgpViewASNData)
    (fetch : Nat → FetchOutcome) (now : Nat) (c : Cache CValue)
    (heap : List ASNDetails) (asn : String) (a : Nat)
    (h : (lookupASNDetails dd fetch now c heap asn).result = .ok a) :
    ∃ entry, (lookupASNDetails dd fetch now c heap asn).cache.data
        ("asn_details_" ++ asn) = some entry ∧ entry.value = .detailsRef a := by
  simp only [lookupASNDetails] at h ⊢
  repeat' split at h
  all_goals simp_all
  all_goals
    first
      | exact Cache.get_eq_some _ now ("asn_details_" ++ asn) _ (by assumption)
      | exact ⟨_, Cache.data_set_self c now ("asn_details_" ++ asn) _ 7200, rfl⟩

/-- C10 (amended, witness): a concrete fresh fetch stores pointer 0 in the
cache and returns that same pointer to the caller. -/
theorem lookupASNDetails_alias_witness :
    ∃ entry, (lookupASNDetails
        (fun _ => some ⟨64500, "ExampleNet", "", [], "US", "", [], [], "", [],
          ⟨"", "", "", ""⟩, ⟨"", "", "", ""⟩, ""⟩)
        (fun _ => .resp ⟨200, "jsonbody"⟩) 0 Cache.empty [] "64500").cache.data
        "asn_details_64500" = some entry ∧ entry.value = .detailsRef 0 :=
  lookupASNDetails_result_aliases_cache
    (fun _ => some ⟨64500, "ExampleNet", "", [], "US", "", [], [], "", [],
      ⟨"", "", "", ""⟩, ⟨"", "", "", ""⟩, ""⟩)
    (fun _ => .resp ⟨200, "jsonbody"⟩) 0 Cache.empty [] "64500" 0 (by rfl)

end IPv6Request
